import Mathlib

/-!
Shallow embedding of the ArmsLength SigInt collector scripts:
sigint_multi_collector.py (namespace Multi), sigint_bluetooth_collector.py
(namespace BTC) and sigint_collector.py (namespace WifiC).

Python dictionaries whose keys may be missing are modelled as structures with
Option fields; an absent key is none and dict.get with a default becomes
Option.getD.  The single HTTP request made inside push_to_server is modelled
by passing its observed outcome as explicit data, so the classification logic
of the except/elif ladder is a total Lean function.  Subprocess output parsing
is outside the embedding; the merge and formatting logic operates on the
parsed records it would produce.
-/

/-- needle is a leading segment of hay (on character lists). -/
def charsLead : List Char → List Char → Bool
  | [], _ => true
  | _ :: _, [] => false
  | a :: as, b :: bs => a == b && charsLead as bs

/-- needle occurs contiguously somewhere inside hay (on character lists). -/
def charsInfix (needle : List Char) : List Char → Bool
  | [] => charsLead needle []
  | b :: bs => charsLead needle (b :: bs) || charsInfix needle bs

/-- Python substring test `needle in hay` on strings. -/
def strContains (hay needle : String) : Bool :=
  charsInfix needle.toList hay.toList

/-- Python slice `s[:n]`: the first n characters.  Structural-recursion
version of String.take, so that proofs can evaluate it. -/
def strTake (s : String) (n : Nat) : String :=
  String.mk (s.data.take n)

/-- Python str.lower (ASCII case mapping, as all keywords are ASCII). -/
def strLower (s : String) : String :=
  String.mk (s.data.map Char.toLower)

/-- Python str.upper (ASCII case mapping, as all addresses are ASCII). -/
def strUpper (s : String) : String :=
  String.mk (s.data.map Char.toUpper)

/-- Python dict.get over a literal table.  Both OUI tables in the source have
pairwise distinct keys, so first-match lookup coincides with dict lookup. -/
def dictGet (db : List (String × String)) (k d : String) : String :=
  match db.find? (fun p => p.1 == k) with
  | some p => p.2
  | none => d

/-- JSON body of an HTTP 200 push response: integer fields created, updated,
processed, any of which may be absent. -/
structure ServerJson where
  created : Option Int
  updated : Option Int
  processed : Option Int
deriving Repr, DecidableEq

/-- Observed outcome of the one `requests.post` call inside push_to_server:
a response with a status code, body text and parsed JSON body, or a
connection-level failure, or a timeout, or any other raised exception. -/
inductive HttpOutcome where
  | response (status : Nat) (text : String) (json : ServerJson)
  | connectionError
  | timeout
  | exception (msg : String)
deriving Repr, DecidableEq

/-- The dict returned as the second component of push_to_server: either the
parsed response body (on HTTP 200) or an error dict. -/
inductive PushBody where
  | payload (j : ServerJson)
  | error (msg : String)
deriving Repr, DecidableEq

/-- Canonical device record pushed to the server.  Wi-Fi records carry a
channel; Bluetooth records do not (channel = none).  The frequency is
nullable for Wi-Fi (unmapped channels).  latitude/longitude are attached
only when both coordinates are configured. -/
structure Device where
  macAddress : String
  name : String
  signalType : String
  deviceType : String
  manufacturer : String
  signalStrength : Int
  frequency : Option Int
  channel : Option Int
  protocol : String
  encryption : String
  latitude : Option Float
  longitude : Option Float
deriving Repr

/-- Raw Wi-Fi sighting dict as produced by the Wi-Fi scan backends. -/
structure RawWifi where
  bssid : Option String
  ssid : Option String
  rssi : Option Int
  channel : Option Int
  auth : Option String
deriving Repr, DecidableEq

/-- Raw Bluetooth sighting dict as produced by the Bluetooth scan backends. -/
structure RawBT where
  mac : Option String
  name : Option String
  type : Option String
  rssi : Option Int
deriving Repr, DecidableEq

/-- A fully-populated Bluetooth sighting as built inside scan_bt_linux:
every dict constructed there has all four keys set. -/
structure BTDev where
  mac : String
  name : String
  type : String
  rssi : Int
deriving Repr, DecidableEq

namespace Multi

/-- OUI_DB of sigint_multi_collector.py. -/
def OUI_DB : List (String × String) := [
  ("00:50:F2", "Microsoft"), ("00:0C:E7", "MediaTek"), ("00:E0:4C", "Realtek"),
  ("B0:7F:B9", "Netgear"), ("C4:E9:84", "TP-Link"), ("14:EB:B6", "TP-Link"),
  ("04:D9:F5", "ASUS"), ("1C:87:2C", "ASUS"), ("78:8A:20", "Ubiquiti"),
  ("F8:1E:DF", "Amazon"), ("F0:F0:A4", "Amazon"), ("30:FD:38", "Google"),
  ("A4:83:E7", "Apple"), ("3C:22:FB", "Apple"), ("DC:2B:61", "Samsung"),
  ("50:DC:E7", "Samsung"), ("88:B4:A6", "Huawei"), ("C8:47:8C", "Xiaomi"),
  ("A0:C5:89", "Motorola"), ("04:5D:4B", "Sony"), ("8C:85:90", "Intel"),
  ("A4:34:D9", "Intel"), ("20:02:AF", "Broadcom"), ("00:1A:2B", "Cisco"),
  ("F0:9F:C2", "Cisco"), ("48:5B:39", "Realtek"), ("9C:B6:D0", "HP"),
  ("B4:A5:EF", "AT&T"), ("E8:ED:F3", "ARRIS"), ("84:EA:ED", "Roku"),
  ("48:A6:B8", "Sonos"), ("44:07:0B", "Ring"), ("2C:AA:8E", "Wyze"),
  ("DC:56:E7", "Apple"), ("F0:D4:15", "Apple"), ("D4:F5:47", "Bose"),
  ("04:52:C7", "Bose"), ("7C:D9:F4", "JBL"), ("88:C6:26", "Tile"),
  ("74:75:48", "Amazon"), ("F4:F5:D8", "Google"), ("8C:DE:52", "Beats"),
  ("2C:41:A1", "Bose"), ("28:6C:07", "Xiaomi"), ("00:18:09", "Garmin")]

/-- is_uuid_address: `len(addr) > 17 or "-" in addr`. -/
def is_uuid_address (addr : String) : Bool :=
  decide (addr.length > 17) || strContains addr "-"

/-- lookup_manufacturer of the multi collector: opaque addresses resolve to
the sentinel, otherwise dict.get on the first 8 characters uppercased. -/
def lookup_manufacturer (mac : String) : String :=
  if is_uuid_address mac then "Unknown (macOS UUID)"
  else dictGet OUI_DB (strUpper (strTake mac 8)) "Unknown"

/-- channel_to_freq of the multi collector (conditional-expression form). -/
def channel_to_freq (channel : Int) : Option Int :=
  if 1 ≤ channel ∧ channel ≤ 14 then
    (if channel ≠ 14 then some ((2407 + channel * 5) * 1000000)
     else some 2484000000)
  else if 36 ≤ channel ∧ channel ≤ 165 then
    some ((5000 + channel * 5) * 1000000)
  else none

/-- classify_bt_device of the multi collector: six keyword categories, first
match wins, generic fallback.  `(name or "").lower()` is name.toLower, since
lowering the empty string is the empty string. -/
def classify_bt_device (name : String) : String :=
  let n := strLower name
  if ["airpod", "buds", "earbuds", "wf-", "wh-", "jbl", "beats"].any
      (fun k => strContains n k) then "Audio / Headphones"
  else if ["watch", "band", "fitbit", "garmin"].any
      (fun k => strContains n k) then "Wearable"
  else if ["iphone", "galaxy", "pixel", "phone"].any
      (fun k => strContains n k) then "Smartphone"
  else if ["tile", "airtag", "smarttag"].any
      (fun k => strContains n k) then "Tracker"
  else if ["keyboard", "mouse", "controller"].any
      (fun k => strContains n k) then "Peripheral"
  else if ["speaker", "sonos", "echo"].any
      (fun k => strContains n k) then "Smart Speaker"
  else "Bluetooth Device"

/-- format_wifi_devices of the multi collector.  The loop with continue is a
filterMap; LATITUDE/LONGITUDE globals are passed as lat/lng. -/
def format_wifi_devices (lat lng : Option Float) (networks : List RawWifi) :
    List Device :=
  networks.filterMap (fun net =>
    let bssid := net.bssid.getD ""
    if bssid = "" ∨ bssid = "00:00:00:00:00:00" then none
    else
      let ssid0 := net.ssid.getD "Hidden Network"
      let ssid := if ssid0 = "" then "Hidden Network" else ssid0
      let channel := net.channel.getD 0
      some {
        macAddress := bssid
        name := ssid
        signalType := "wifi"
        deviceType := "Wi-Fi Network"
        manufacturer := lookup_manufacturer bssid
        signalStrength := net.rssi.getD (-80)
        frequency := channel_to_freq channel
        channel := some channel
        protocol := "802.11"
        encryption := net.auth.getD "Unknown"
        latitude := if lat.isSome && lng.isSome then lat else none
        longitude := if lat.isSome && lng.isSome then lng else none })

/-- format_bt_devices of the multi collector.  Note: the only drop condition
is `if not mac`; there is no all-zero sentinel check here. -/
def format_bt_devices (lat lng : Option Float) (bt_devices : List RawBT) :
    List Device :=
  bt_devices.filterMap (fun d =>
    let mac := d.mac.getD ""
    if mac = "" then none
    else
      let name := d.name.getD "Unknown"
      let bt_type := d.type.getD "classic"
      some {
        macAddress := mac
        name := name
        signalType := "bluetooth"
        deviceType := classify_bt_device name
        manufacturer := lookup_manufacturer mac
        signalStrength := d.rssi.getD (-80)
        frequency := some (if bt_type = "ble" then 2402000000 else 2440000000)
        channel := none
        protocol := if bt_type = "ble" then "BLE 5.0" else "Bluetooth Classic"
        encryption := if bt_type = "ble" then "AES-CCM" else "E0/AES"
        latitude := if lat.isSome && lng.isSome then lat else none
        longitude := if lat.isSome && lng.isSome then lng else none })

/-- push_to_server of the multi collector, as a function of the outcome of
its single requests.post call.  Every branch of the try/except ladder
returns a pair; nothing propagates to the caller. -/
def push_to_server (appUrl : String) (outcome : HttpOutcome) :
    Bool × PushBody :=
  match outcome with
  | .response status text j =>
    if status = 200 then (true, .payload j)
    else if status = 401 then (false, .error "Invalid API key.")
    else if status = 403 then (false, .error "API key is disabled.")
    else (false, .error ("HTTP " ++ toString status ++ ": " ++ strTake text 200))
  | .connectionError => (false, .error ("Cannot connect to " ++ appUrl ++ "."))
  | .timeout => (false, .error "Timeout.")
  | .exception msg => (false, .error msg)

/-- `result.get("processed", 0)` on the dict returned by push_to_server. -/
def resultGetProcessed (b : PushBody) : Int :=
  match b with
  | .payload j => j.processed.getD 0
  | .error _ => 0

/-- The counter update of the main loop: `total_pushed` grows by the
server-reported processed count only when the push succeeded. -/
def updateTotalPushed (totalPushed : Int) (pushResult : Bool × PushBody) :
    Int :=
  if pushResult.1 then totalPushed + resultGetProcessed pushResult.2
  else totalPushed

/-- The second adapter pass of scan_bt_linux: for each (mac, name) pair
parsed from the bluetoothctl device registry, append a record only when no
already-collected device has the same address. -/
def btRegistryMerge (devices : List BTDev) (registry : List (String × String)) :
    List BTDev :=
  registry.foldl (fun acc p =>
    if acc.any (fun d => d.mac == p.1) then acc
    else acc ++ [{ mac := p.1, name := p.2, type := "classic", rssi := -65 }])
    devices

end Multi

namespace BTC

/-- BT_OUI_DB of sigint_bluetooth_collector.py. -/
def BT_OUI_DB : List (String × String) := [
  ("A4:83:E7", "Apple"), ("3C:22:FB", "Apple"), ("DC:56:E7", "Apple"),
  ("F0:D4:15", "Apple"), ("78:7B:8A", "Apple"), ("AC:BC:32", "Apple"),
  ("DC:2B:61", "Samsung"), ("50:DC:E7", "Samsung"), ("88:B4:A6", "Huawei"),
  ("C8:47:8C", "Xiaomi"), ("A0:C5:89", "Motorola"), ("04:5D:4B", "Sony"),
  ("F8:1E:DF", "Amazon"), ("44:07:0B", "Ring"), ("2C:AA:8E", "Wyze"),
  ("48:A6:B8", "Sonos"), ("74:75:48", "Amazon"), ("30:FD:38", "Google"),
  ("F4:F5:D8", "Google"), ("54:60:09", "Google"), ("E8:48:B8", "Samsung"),
  ("B0:BE:76", "Samsung"), ("94:DB:56", "Sony"), ("D4:F5:47", "Bose"),
  ("04:52:C7", "Bose"), ("2C:41:A1", "Bose"), ("28:6C:07", "Xiaomi"),
  ("8C:DE:52", "Beats"), ("7C:D9:F4", "JBL"), ("00:18:09", "Garmin"),
  ("00:16:4E", "Nokia"), ("88:C6:26", "Tile"), ("E4:17:D8", "Tile")]

/-- is_uuid_address of the bluetooth collector (same body). -/
def is_uuid_address (addr : String) : Bool :=
  decide (addr.length > 17) || strContains addr "-"

/-- lookup_manufacturer of the bluetooth collector, over BT_OUI_DB. -/
def lookup_manufacturer (mac : String) : String :=
  if is_uuid_address mac then "Unknown (macOS UUID)"
  else dictGet BT_OUI_DB (strUpper (strTake mac 8)) "Unknown"

/-- classify_bt_device of the bluetooth collector: nine keyword categories
tested in order, first match wins, generic fallback.  The manufacturer
argument is accepted and unused, as in the source. -/
def classify_bt_device (name : String) (manufacturer : String) : String :=
  let n := strLower name
  if ["airpod", "buds", "earbuds", "wf-", "wh-", "jbl", "beats"].any
      (fun k => strContains n k) then "Audio / Headphones"
  else if ["watch", "band", "fitbit", "garmin", "mi band"].any
      (fun k => strContains n k) then "Wearable"
  else if ["iphone", "galaxy", "pixel", "phone"].any
      (fun k => strContains n k) then "Smartphone"
  else if ["ipad", "tab", "tablet"].any
      (fun k => strContains n k) then "Tablet"
  else if ["tile", "airtag", "smarttag"].any
      (fun k => strContains n k) then "Tracker"
  else if ["keyboard", "mouse", "controller"].any
      (fun k => strContains n k) then "Peripheral"
  else if ["speaker", "sonos", "echo", "homepod"].any
      (fun k => strContains n k) then "Smart Speaker"
  else if ["tv", "roku", "fire", "chromecast"].any
      (fun k => strContains n k) then "Smart TV / Streaming"
  else if ["ring", "nest", "wyze", "cam"].any
      (fun k => strContains n k) then "Smart Home"
  else "Bluetooth Device"

/-- format_devices of the bluetooth collector.  Unlike the multi collector
variant this one drops the all-zero sentinel address. -/
def format_devices (lat lng : Option Float) (bt_devices : List RawBT) :
    List Device :=
  bt_devices.filterMap (fun d =>
    let mac := d.mac.getD ""
    if mac = "" ∨ mac = "00:00:00:00:00:00" then none
    else
      let name := d.name.getD "Unknown Device"
      let manufacturer := lookup_manufacturer mac
      let bt_type := d.type.getD "classic"
      some {
        macAddress := mac
        name := name
        signalType := "bluetooth"
        deviceType := classify_bt_device name manufacturer
        manufacturer := manufacturer
        signalStrength := d.rssi.getD (-80)
        frequency := some (if bt_type = "ble" then 2402000000 else 2440000000)
        channel := none
        protocol := if bt_type = "ble" then "BLE 5.0" else "Bluetooth Classic"
        encryption := if bt_type = "ble" then "AES-CCM" else "E0/AES"
        latitude := if lat.isSome && lng.isSome then lat else none
        longitude := if lat.isSome && lng.isSome then lng else none })

end BTC

namespace WifiC

/-- channel_to_freq of sigint_collector.py (statement form, same mapping). -/
def channel_to_freq (channel : Int) : Option Int :=
  if 1 ≤ channel ∧ channel ≤ 14 then
    if channel = 14 then some 2484000000
    else some ((2407 + channel * 5) * 1000000)
  else if 36 ≤ channel ∧ channel ≤ 165 then
    some ((5000 + channel * 5) * 1000000)
  else none

end WifiC

namespace Spec

/-- Channel-to-frequency map written from the words of the specification:
channels 1 to 13 by the 2.4 GHz linear formula, channel 14 fixed at
2484000000 Hz, channels 36 to 165 by the 5 GHz linear formula, every other
channel null. -/
def freqSpec (c : Int) : Option Int :=
  if 1 ≤ c ∧ c ≤ 13 then some ((2407 + 5 * c) * 1000000)
  else if c = 14 then some 2484000000
  else if 36 ≤ c ∧ c ≤ 165 then some ((5000 + 5 * c) * 1000000)
  else none

/-- Priority-ordered category table as declared by the specification:
Audio, Wearable, Smartphone, Tablet, Tracker, Peripheral, Smart Speaker,
Smart TV/Streaming, Smart Home. -/
def catTable : List (List String × String) := [
  (["airpod", "buds", "earbuds", "wf-", "wh-", "jbl", "beats"],
    "Audio / Headphones"),
  (["watch", "band", "fitbit", "garmin", "mi band"], "Wearable"),
  (["iphone", "galaxy", "pixel", "phone"], "Smartphone"),
  (["ipad", "tab", "tablet"], "Tablet"),
  (["tile", "airtag", "smarttag"], "Tracker"),
  (["keyboard", "mouse", "controller"], "Peripheral"),
  (["speaker", "sonos", "echo", "homepod"], "Smart Speaker"),
  (["tv", "roku", "fire", "chromecast"], "Smart TV / Streaming"),
  (["ring", "nest", "wyze", "cam"], "Smart Home")]

/-- First matching category of a priority table, generic fallback when no
keyword set matches.  The name is expected already lowercased. -/
def firstMatchCategory : List (List String × String) → String → String
  | [], _ => "Bluetooth Device"
  | (kws, cat) :: rest, n =>
    if kws.any (fun k => strContains n k) then cat
    else firstMatchCategory rest n

end Spec

/-- The raw Wi-Fi sighting of the end-to-end scenario of the spec. -/
def rawC4 : RawWifi :=
  { bssid := some "AC:BC:32:11:22:33", ssid := some "HomeNet",
    rssi := some (-55), channel := some 6, auth := some "WPA2" }

/-- The canonical record the spec claims for the scenario (manufacturer
Apple). -/
def claimedC4 : Device :=
  { macAddress := "AC:BC:32:11:22:33", name := "HomeNet",
    signalType := "wifi", deviceType := "Wi-Fi Network",
    manufacturer := "Apple", signalStrength := -55,
    frequency := some 2437000000, channel := some 6,
    protocol := "802.11", encryption := "WPA2",
    latitude := none, longitude := none }

/-- The record the multi collector actually emits for the scenario: the
prefix of this address is present only in BT_OUI_DB, not in OUI_DB, so the
manufacturer resolves to Unknown. -/
def actualC4 : Device :=
  { macAddress := "AC:BC:32:11:22:33", name := "HomeNet",
    signalType := "wifi", deviceType := "Wi-Fi Network",
    manufacturer := "Unknown", signalStrength := -55,
    frequency := some 2437000000, channel := some 6,
    protocol := "802.11", encryption := "WPA2",
    latitude := none, longitude := none }

/-- C1.  The spec claims both formatters drop a sighting whose address is the
all-zero MAC sentinel.  The Wi-Fi formatter of the multi collector and the
formatter of the bluetooth collector do drop it, but format_bt_devices of
the multi collector only drops an empty address: a Bluetooth sighting with
the all-zero address is forwarded, so the code contradicts the invariant its
sibling variants implement. -/
theorem c1_zero_sentinel_bt_formatter_emits :
    (Multi.format_wifi_devices none none
      [{ bssid := some "00:00:00:00:00:00", ssid := some "ZeroNet",
         rssi := some (-50), channel := some 6,
         auth := some "WPA2" }]).length = 0
    ∧ (Multi.format_bt_devices none none
      [{ mac := some "00:00:00:00:00:00", name := some "ZeroDev",
         type := some "classic", rssi := some (-50) }]).length = 1
    ∧ (BTC.format_devices none none
      [{ mac := some "00:00:00:00:00:00", name := some "ZeroDev",
         type := some "classic", rssi := some (-50) }]).length = 0 := by
  decide

/-- C2 counterexample.  The address AA.BB.CC.DD.EE.FF is 17 characters long
and uses the dot as its delimiter, which is a delimiter other than the
colon; the claim says manufacturer lookup must resolve it to the
opaque-identifier sentinel, but the code only tests for a hyphen, so the
lookup returns the plain Unknown default instead of the sentinel. -/
theorem c2_dot_delimiter_counterexample :
    strContains "AA.BB.CC.DD.EE.FF" "." = true
    ∧ "AA.BB.CC.DD.EE.FF".length = 17
    ∧ Multi.lookup_manufacturer "AA.BB.CC.DD.EE.FF" = "Unknown"
    ∧ "Unknown" ≠ "Unknown (macOS UUID)" := by
  decide

/-- C2 amended.  An address is classified opaque exactly when it is longer
than 17 characters or contains a hyphen (not an arbitrary non-colon
delimiter); opaque addresses resolve to the sentinel and never reach the
OUI table, and every other address resolves to the OUI entry keyed by its
first 8 characters uppercased, defaulting to Unknown. -/
theorem c2_manufacturer_lookup_amended (addr : String) :
    (Multi.is_uuid_address addr
      = (decide (addr.length > 17) || strContains addr "-"))
    ∧ (Multi.is_uuid_address addr = true →
        Multi.lookup_manufacturer addr = "Unknown (macOS UUID)")
    ∧ (Multi.is_uuid_address addr = false →
        Multi.lookup_manufacturer addr
          = dictGet Multi.OUI_DB (strUpper (strTake addr 8)) "Unknown") := by
  refine ⟨rfl, ?_, ?_⟩
  · intro h
    simp [Multi.lookup_manufacturer, h]
  · intro h
    simp [Multi.lookup_manufacturer, h]

theorem c2_manufacturer_lookup_amended_witness :
    Multi.lookup_manufacturer "A4:83:E7:11:22:33"
      = dictGet Multi.OUI_DB (strUpper (strTake "A4:83:E7:11:22:33" 8)) "Unknown" :=
  (c2_manufacturer_lookup_amended "A4:83:E7:11:22:33").2.2 (by decide)

/-- C3.  Both channel_to_freq variants agree with the piecewise total map of
the spec: channels 1 to 13 by the 2.4 GHz linear formula, channel 14 fixed
at 2484000000 Hz rather than the linear value, channels 36 to 165 by the
5 GHz linear formula, and every other channel maps to none; in particular
channel 6 gives 2437000000, channel 40 gives 5200000000, channel 200 gives
none. -/
theorem c3_channel_frequency_total_piecewise (c : Int) :
    Multi.channel_to_freq c = Spec.freqSpec c
    ∧ WifiC.channel_to_freq c = Spec.freqSpec c
    ∧ Multi.channel_to_freq 6 = some 2437000000
    ∧ Multi.channel_to_freq 40 = some 5200000000
    ∧ Multi.channel_to_freq 200 = none
    ∧ Multi.channel_to_freq 14 = some 2484000000
    ∧ (2407 + (14 : Int) * 5) * 1000000 ≠ 2484000000 := by
  refine ⟨?_, ?_, by decide, by decide, by decide, by decide, by decide⟩
  · unfold Multi.channel_to_freq Spec.freqSpec
    split_ifs <;> first | rfl | (exfalso; omega) | (congr 1; omega)
  · unfold WifiC.channel_to_freq Spec.freqSpec
    split_ifs <;> first | rfl | (exfalso; omega) | (congr 1; omega)

/-- C4 counterexample.  For the raw Wi-Fi sighting of the end-to-end
scenario, the multi collector does not emit the record claimed by the spec:
the claimed manufacturer is Apple, but the AC:BC:32 prefix is present only
in BT_OUI_DB of the bluetooth collector and not in OUI_DB of the multi
collector, so the emitted manufacturer is Unknown. -/
theorem c4_wifi_scenario_counterexample :
    Multi.format_wifi_devices none none [rawC4] ≠ [claimedC4] :=
  fun h => absurd (congrArg (List.map Device.manufacturer) h) (by decide)

/-- C4 amended.  Normalizing the scenario sighting emits exactly one record,
identical to the claimed one except that manufacturer is Unknown, and with
no latitude/longitude when no coordinates are configured; the Apple result
the spec expects belongs to the bluetooth collector OUI table. -/
theorem c4_wifi_scenario_amended :
    Multi.format_wifi_devices none none [rawC4] = [actualC4]
    ∧ BTC.lookup_manufacturer "AC:BC:32:11:22:33" = "Apple"
    ∧ actualC4.latitude = none ∧ actualC4.longitude = none :=
  ⟨rfl, by decide, rfl, rfl⟩

/-- C5.  The bluetooth collector classifier lowercases the name and returns
the first matching category of the priority table declared by the spec
(Audio, Wearable, Smartphone, Tablet, Tracker, Peripheral, Smart Speaker,
Smart TV/Streaming, Smart Home), with the generic fallback when no keyword
set matches; a name containing both watch and iphone is decided by table
order, and since the wearable set is tested before the smartphone set the
winner is Wearable, in both collector variants. -/
theorem c5_classifier_priority_order (name manufacturer : String) :
    BTC.classify_bt_device name manufacturer
      = Spec.firstMatchCategory Spec.catTable (strLower name)
    ∧ BTC.classify_bt_device "Apple Watch iPhone 15" "x" = "Wearable"
    ∧ Multi.classify_bt_device "Apple Watch iPhone 15" = "Wearable" :=
  ⟨rfl, by decide, by decide⟩

/-- C6.  Classification of the single request attempt inside push_to_server:
HTTP 200 is accepted with the parsed body, 401 is the invalid-credential
failure, 403 the disabled-credential failure, any other status a generic
server error carrying the first 200 characters of the body, a connection
failure and a timeout map to their fixed error dicts, and a raised
exception is converted to an error pair, so the call returns in every case
instead of raising.  The embedding consumes exactly one HttpOutcome, which
is the single attempt the code makes: there is no retry inside the call. -/
theorem c6_push_outcome_taxonomy (url text msg : String) (j : ServerJson)
    (status : Nat) :
    Multi.push_to_server url (.response 200 text j) = (true, .payload j)
    ∧ Multi.push_to_server url (.response 401 text j)
        = (false, .error "Invalid API key.")
    ∧ Multi.push_to_server url (.response 403 text j)
        = (false, .error "API key is disabled.")
    ∧ (status ≠ 200 → status ≠ 401 → status ≠ 403 →
        Multi.push_to_server url (.response status text j)
          = (false,
             .error ("HTTP " ++ toString status ++ ": " ++ strTake text 200)))
    ∧ Multi.push_to_server url .connectionError
        = (false, .error ("Cannot connect to " ++ url ++ "."))
    ∧ Multi.push_to_server url .timeout = (false, .error "Timeout.")
    ∧ Multi.push_to_server url (.exception msg) = (false, .error msg) := by
  refine ⟨rfl, rfl, rfl, ?_, rfl, rfl, rfl⟩
  intro h1 h2 h3
  simp [Multi.push_to_server, h1, h2, h3]

theorem c6_push_outcome_taxonomy_witness :
    Multi.push_to_server "u" (.response 500 "body" ⟨none, none, none⟩)
      = (false, .error ("HTTP " ++ toString 500 ++ ": " ++ strTake "body" 200)) :=
  (c6_push_outcome_taxonomy "u" "body" "m" ⟨none, none, none⟩ 500).2.2.2.1
    (by decide) (by decide) (by decide)

/-- C7.  The cumulative processed counter is unchanged whenever the push is
classified as a failure, in particular on HTTP 401, and on success it grows
by exactly the processed value reported in the server response body, a
quantity that does not depend on the submitted batch at all. -/
theorem c7_processed_counter_accumulation (total : Int) (url text : String)
    (j : ServerJson) (out : HttpOutcome) :
    ((Multi.push_to_server url out).1 = false →
      Multi.updateTotalPushed total (Multi.push_to_server url out) = total)
    ∧ Multi.updateTotalPushed total
        (Multi.push_to_server url (.response 401 text j)) = total
    ∧ Multi.updateTotalPushed total
        (Multi.push_to_server url (.response 200 text j))
        = total + j.processed.getD 0 := by
  refine ⟨?_, rfl, rfl⟩
  intro h
  simp [Multi.updateTotalPushed, h]

theorem c7_processed_counter_accumulation_witness :
    Multi.updateTotalPushed 5 (Multi.push_to_server "u" .timeout) = 5 :=
  (c7_processed_counter_accumulation 5 "u" "t" ⟨none, none, none⟩ .timeout).1 rfl

theorem btRegistryMerge_cons (acc : List BTDev) (p : String × String)
    (rest : List (String × String)) :
    Multi.btRegistryMerge acc (p :: rest)
      = Multi.btRegistryMerge
          (if acc.any (fun d => d.mac == p.1) then acc
           else acc ++
             [{ mac := p.1, name := p.2, type := "classic", rssi := -65 }])
          rest := rfl

theorem find_append_left {α : Type} (p : α → Bool) {l1 : List α}
    (l2 : List α) {a : α} (h : l1.find? p = some a) :
    (l1 ++ l2).find? p = some a := by
  induction l1 with
  | nil => simp [List.find?] at h
  | cons x xs ih =>
    by_cases hx : p x
    · rw [List.find?_cons_of_pos _ hx] at h
      rw [List.cons_append, List.find?_cons_of_pos _ hx]
      exact h
    · rw [List.find?_cons_of_neg _ hx] at h
      rw [List.cons_append, List.find?_cons_of_neg _ hx]
      exact ih h

theorem btRegistryMerge_append (reg : List (String × String)) :
    ∀ acc : List BTDev, ∃ extras,
      Multi.btRegistryMerge acc reg = acc ++ extras := by
  induction reg with
  | nil => intro acc; exact ⟨[], by simp [Multi.btRegistryMerge]⟩
  | cons p rest ih =>
    intro acc
    rw [btRegistryMerge_cons]
    split_ifs with hany
    · exact ih acc
    · rcases ih (acc ++
        [{ mac := p.1, name := p.2, type := "classic", rssi := -65 }]) with
        ⟨e, he⟩
      exact ⟨[{ mac := p.1, name := p.2, type := "classic", rssi := -65 }] ++ e,
        by rw [he, List.append_assoc]⟩

theorem btRegistryMerge_nodup (reg : List (String × String)) :
    ∀ acc : List BTDev, (acc.map BTDev.mac).Nodup →
      ((Multi.btRegistryMerge acc reg).map BTDev.mac).Nodup := by
  induction reg with
  | nil => intro acc h; exact h
  | cons p rest ih =>
    intro acc h
    rw [btRegistryMerge_cons]
    apply ih
    split_ifs with hany
    · exact h
    · have hnot : p.1 ∉ acc.map BTDev.mac := by
        intro hmem
        rcases List.mem_map.mp hmem with ⟨d, hd, hdm⟩
        exact hany (List.any_eq_true.mpr ⟨d, hd, by simp [hdm]⟩)
      simp only [List.map_append, List.map_cons, List.map_nil]
      rw [List.nodup_append]
      refine ⟨h, List.nodup_singleton _, fun x hx hmem => ?_⟩
      have hxp : x = p.1 := by simpa using hmem
      subst hxp
      exact hnot hx

theorem btRegistryMerge_find (reg : List (String × String)) :
    ∀ (acc : List BTDev) (m : String),
      acc.any (fun d => d.mac == m) = true →
      (Multi.btRegistryMerge acc reg).find? (fun d => d.mac == m)
        = acc.find? (fun d => d.mac == m) := by
  induction reg with
  | nil => intro acc m _; rfl
  | cons p rest ih =>
    intro acc m h
    rw [btRegistryMerge_cons]
    split_ifs with hany
    · exact ih acc m h
    · have h2 : (acc ++
          [({ mac := p.1, name := p.2, type := "classic", rssi := -65 } :
            BTDev)]).any
          (fun d => d.mac == m) = true := by
        rw [List.any_append]
        simp [h]
      have hsome : (acc.find? (fun d => d.mac == m)).isSome := by
        rcases List.any_eq_true.mp h with ⟨d, hd, hdm⟩
        exact List.find?_isSome.mpr ⟨d, hd, hdm⟩
      rcases Option.isSome_iff_exists.mp hsome with ⟨a, ha⟩
      rw [ih _ m h2, find_append_left _ _ ha, ha]

/-- C8.  The device-registry pass of scan_bt_linux never overwrites an
address already collected by the earlier native scan: provided the earlier
results carry pairwise distinct addresses, the merged list has each address
exactly once, every earlier record survives unchanged, and looking any
earlier address up in the merged list yields exactly the earlier record,
hence its name, transport type and signal-strength fields. -/
theorem c8_adapter_merge_first_wins (l1 : List BTDev)
    (reg : List (String × String)) (h : (l1.map BTDev.mac).Nodup) :
    ((Multi.btRegistryMerge l1 reg).map BTDev.mac).Nodup
    ∧ (∀ d ∈ l1, d ∈ Multi.btRegistryMerge l1 reg)
    ∧ (∀ m, m ∈ l1.map BTDev.mac →
        (Multi.btRegistryMerge l1 reg).find? (fun d => d.mac == m)
          = l1.find? (fun d => d.mac == m)) := by
  refine ⟨btRegistryMerge_nodup reg l1 h, ?_, ?_⟩
  · rcases btRegistryMerge_append reg l1 with ⟨e, he⟩
    rw [he]
    intro d hd
    exact List.mem_append_left _ hd
  · intro m hm
    rcases List.mem_map.mp hm with ⟨d, hd, hdm⟩
    exact btRegistryMerge_find reg l1 m
      (List.any_eq_true.mpr ⟨d, hd, by simp [hdm]⟩)

theorem c8_adapter_merge_first_wins_witness :
    ((Multi.btRegistryMerge
        [{ mac := "7C:D9:F4:AA:BB:CC", name := "JBL Flip 5",
           type := "classic", rssi := -70 }]
        [("7C:D9:F4:AA:BB:CC", "Flip"),
         ("88:C6:26:00:11:22", "Tile")]).map BTDev.mac).Nodup :=
  (c8_adapter_merge_first_wins _ _ (by decide)).1

/-- C9 counterexample.  A Bluetooth sighting whose name key is present but
holds the empty string is emitted by format_bt_devices of the multi
collector with an empty display name: the placeholder is substituted only
when the key is absent, so not every emitted record has a non-empty name. -/
theorem c9_empty_bt_name_counterexample :
    (Multi.format_bt_devices none none
      [{ mac := some "AA:BB:CC:DD:EE:01", name := some "",
         type := some "classic", rssi := some (-50) }]).map Device.name
      = [""] := by
  decide

/-- C9 amended.  The Wi-Fi formatter always emits a non-empty display name,
substituting the placeholder for an absent or empty ssid; the Bluetooth
formatter substitutes its placeholder only when the name key is absent, so
an empty-string Bluetooth name is forwarded unchanged. -/
theorem c9_display_name_amended :
    (∀ (lat lng : Option Float) (nets : List RawWifi) (d : Device),
        d ∈ Multi.format_wifi_devices lat lng nets → d.name ≠ "")
    ∧ (∀ (lat lng : Option Float) (r : RawBT), r.name = none →
        (Multi.format_bt_devices lat lng [r]).map Device.name
          = if r.mac.getD "" = "" then [] else ["Unknown"]) := by
  constructor
  · intro lat lng nets d hd
    simp only [Multi.format_wifi_devices, List.mem_filterMap] at hd
    obtain ⟨net, _, hf⟩ := hd
    by_cases hb : net.bssid.getD "" = "" ∨ net.bssid.getD "" = "00:00:00:00:00:00"
    · simp [hb] at hf
    · simp only [if_neg hb, Option.some.injEq] at hf
      subst hf
      show (if net.ssid.getD "Hidden Network" = "" then "Hidden Network"
            else net.ssid.getD "Hidden Network") ≠ ""
      split_ifs with hs
      · decide
      · exact hs
  · intro lat lng r h
    by_cases hm : r.mac.getD "" = ""
    · simp [Multi.format_bt_devices, hm]
    · simp [Multi.format_bt_devices, hm, h]

theorem c9_display_name_amended_witness :
    (Multi.format_bt_devices none none
      [{ mac := some "AA:BB:CC:DD:EE:02", name := none,
         type := some "classic", rssi := some (-40) }]).map Device.name
      = if (some "AA:BB:CC:DD:EE:02" : Option String).getD "" = ""
        then [] else ["Unknown"] :=
  c9_display_name_amended.2 none none
    ({ mac := some "AA:BB:CC:DD:EE:02", name := none,
       type := some "classic", rssi := some (-40) } : RawBT) rfl

/-- C10.  When a raw sighting has no rssi key, every record the formatters
emit for it carries signalStrength exactly -80, in the Wi-Fi and Bluetooth
formatters of the multi collector and in the bluetooth collector formatter;
the field itself is total in the record schema, never omitted. -/
theorem c10_missing_rssi_defaults (lat lng : Option Float) (w : RawWifi)
    (b : RawBT) (hw : w.rssi = none) (hb : b.rssi = none) :
    (Multi.format_wifi_devices lat lng [w]).all
      (fun d => d.signalStrength == -80) = true
    ∧ (Multi.format_bt_devices lat lng [b]).all
      (fun d => d.signalStrength == -80) = true
    ∧ (BTC.format_devices lat lng [b]).all
      (fun d => d.signalStrength == -80) = true := by
  refine ⟨?_, ?_, ?_⟩
  · by_cases hc : w.bssid.getD "" = "" ∨ w.bssid.getD "" = "00:00:00:00:00:00"
    · simp [Multi.format_wifi_devices, hc]
    · simp [Multi.format_wifi_devices, hc, hw]
  · by_cases hc : b.mac.getD "" = ""
    · simp [Multi.format_bt_devices, hc]
    · simp [Multi.format_bt_devices, hc, hb]
  · by_cases hc : b.mac.getD "" = "" ∨ b.mac.getD "" = "00:00:00:00:00:00"
    · simp [BTC.format_devices, hc]
    · simp [BTC.format_devices, hc, hb]

theorem c10_missing_rssi_defaults_witness :
    (Multi.format_wifi_devices none none
      [{ bssid := some "C4:E9:84:00:11:22", ssid := some "Net",
         rssi := none, channel := some 6, auth := some "WPA2" }]).all
      (fun d => d.signalStrength == -80) = true :=
  (c10_missing_rssi_defaults none none
    { bssid := some "C4:E9:84:00:11:22", ssid := some "Net",
      rssi := none, channel := some 6, auth := some "WPA2" }
    { mac := some "AA:BB:CC:DD:EE:03", name := some "X",
      type := some "ble", rssi := none } rfl rfl).1
